import Mathlib

/-!
Shallow embedding of the ISO 15765-2 proxy (`src/ISO15765Proxy/iso15765.cpp`):
the frame codec, the per-filter transfer state machine (`ISO15765Transfer`),
the channel adapter's batch read loop, and the device `connect` translation.

Machine integers are modelled as `Nat`.  `unsigned long` values wrap at
`2 ^ 64`; the only place this matters is the `--mBs` decrement (wrap from 0)
and the `Timeout <= 0` test, which for an unsigned `Timeout` is equivalent to
`Timeout == 0`.  Byte buffers (`Data[4128]`) are modelled as total functions
`Nat → Nat`; the C code only ever reads indices it has previously written or
that arrive from the bus, so unwritten indices are irrelevant to the claims.

The underlying CAN channel and the steady clock are modelled as oracles
(`Env`): a stream of remaining-time samples, a stream of per-call write
outcomes (`count == 1` or not), and a stream of read results.  The blocking
loops of `writeMsg` and `readMsgs` consume explicit fuel; every theorem either
holds for all fuel or carries an explicit sufficient-fuel hypothesis.
-/

namespace ISO15765Proxy

/-- J2534 protocol id for raw CAN.  The numeric value (5) comes from the
pass-through API headers, which are outside this repository; the spec fixes
the relation `ISO15765 - 1 == CAN`. -/
def CAN : Nat := 5

/-- J2534 protocol id for ISO15765 (6 in the pass-through API). -/
def ISO15765 : Nat := 6

/-- Transmit-flag bit `ISO15765_FRAME_PAD` (0x40 in the pass-through API). -/
def ISO15765_FRAME_PAD : Nat := 0x40

/-- Receive/transmit flag bit `ISO15765_ADDR_TYPE` (0x80). -/
def ISO15765_ADDR_TYPE : Nat := 0x80

/-- Modulus of `unsigned long` (64-bit) arithmetic. -/
def ULONG_MOD : Nat := 2 ^ 64

/-- The pass-through message record (`PASSTHRU_MSG`). -/
structure PASSTHRU_MSG where
  ProtocolID : Nat
  RxStatus : Nat
  TxFlags : Nat
  Timestamp : Nat
  DataSize : Nat
  ExtraDataIndex : Nat
  Data : Nat → Nat
deriving Inhabited

/-- `data2pid`: read a 29-bit CAN id from the first four data bytes. -/
def data2pid (d : Nat → Nat) : Nat :=
  ((0x1F &&& d 0) <<< 24) ||| ((0xFF &&& d 1) <<< 16) |||
    ((0xFF &&& d 2) <<< 8) ||| ((0xFF &&& d 3) <<< 0)

/-- `pid2Data`: write the four big-endian id bytes into a buffer. -/
def pid2Data (pid : Nat) (d : Nat → Nat) : Nat → Nat := fun i =>
  if i = 0 then 0x1F &&& (pid >>> 24)
  else if i = 1 then 0xFF &&& (pid >>> 16)
  else if i = 2 then 0xFF &&& (pid >>> 8)
  else if i = 3 then 0xFF &&& (pid >>> 0)
  else d i

/-- The PCI frame kinds distinguished by `ISO15765Transfer::getFrameName`. -/
inductive PCIFrameName where
  | SingleFrame
  | FirstFrame
  | ConsecutiveFrame
  | FlowControl
  | UnknownFrame
deriving DecidableEq, Repr

/-- `getFrameName`: classify a PCI byte by its upper nibble. -/
def getFrameName (pci : Nat) : PCIFrameName :=
  if (pci &&& 0xF0) >>> 4 = 0 then .SingleFrame
  else if (pci &&& 0xF0) >>> 4 = 1 then .FirstFrame
  else if (pci &&& 0xF0) >>> 4 = 2 then .ConsecutiveFrame
  else if (pci &&& 0xF0) >>> 4 = 3 then .FlowControl
  else .UnknownFrame

/-- `getPci`: upper-nibble tag in high position. -/
def getPci : PCIFrameName → Nat
  | .SingleFrame => 0x0 <<< 4
  | .FirstFrame => 0x1 <<< 4
  | .ConsecutiveFrame => 0x2 <<< 4
  | .FlowControl => 0x3 <<< 4
  | .UnknownFrame => 0xF <<< 4

/-- `getRemainingSize`: `min(msg.DataSize - offset, 7)` with `size_t`
subtraction; when `offset > DataSize` the C subtraction wraps to a huge value
and the cap yields 7. -/
def getRemainingSize (msg : PASSTHRU_MSG) (off : Nat) : Nat :=
  if off ≤ msg.DataSize then
    (if msg.DataSize - off > 7 then 7 else msg.DataSize - off)
  else 7

/-- Write one byte of a buffer. -/
def setData (dst : Nat → Nat) (idx v : Nat) : Nat → Nat :=
  fun i => if i = idx then v else dst i

/-- `memcpy(&dst[dOff], &src[sOff], len)` on byte buffers. -/
def copyData (dst : Nat → Nat) (dOff : Nat) (src : Nat → Nat) (sOff len : Nat) :
    Nat → Nat :=
  fun i => if dOff ≤ i ∧ i < dOff + len then src (sOff + (i - dOff)) else dst i

/-- `paddingMessage`: zero-fill `Data[DataSize .. 12)` and set `DataSize = 12`. -/
def paddingMessage (m : PASSTHRU_MSG) : PASSTHRU_MSG :=
  { m with
    Data := fun i => if m.DataSize ≤ i ∧ i < 12 then 0 else m.Data i,
    DataSize := 12 }

/-- `prepareSentMessageHeaders(out, in)`: retag to CAN, strip the ISO15765-only
transmit flags, zero the bookkeeping fields and copy the 4 PID bytes.  The
flag strip `TxFlags & ~(ISO15765_FRAME_PAD | ISO15765_ADDR_TYPE)` is 64-bit
complement arithmetic. -/
def prepareSentMessageHeaders (inMsg old : PASSTHRU_MSG) : PASSTHRU_MSG where
  ProtocolID := CAN
  RxStatus := 0
  TxFlags := inMsg.TxFlags &&& (ULONG_MOD - 1 - (ISO15765_FRAME_PAD ||| ISO15765_ADDR_TYPE))
  Timestamp := 0
  DataSize := 0
  ExtraDataIndex := 0
  Data := fun i => if i < 4 then inMsg.Data i else old.Data i

/-- `prepareReceivedMessageHeaders(out, in)`: retag to ISO15765, keep the
receive status, zero the rest and copy the 4 PID bytes. -/
def prepareReceivedMessageHeaders (inMsg old : PASSTHRU_MSG) : PASSTHRU_MSG where
  ProtocolID := ISO15765
  RxStatus := inMsg.RxStatus
  TxFlags := 0
  Timestamp := 0
  DataSize := 0
  ExtraDataIndex := 0
  Data := fun i => if i < 4 then inMsg.Data i else old.Data i

/-- The three transfer states. -/
inductive TransferState where
  | START_STATE
  | FLOW_CONTROL_STATE
  | BLOCK_STATE
deriving DecidableEq, Repr, Inhabited

/-- The per-filter transfer state machine (`ISO15765Transfer`). -/
structure ISO15765Transfer where
  mState : TransferState
  mOffset : Nat
  mSequence : Nat
  mBs : Nat
  mStmin : Nat
  mMaskPid : Nat
  mPatternPid : Nat
  mFlowControlPid : Nat
  mMessage : PASSTHRU_MSG
deriving Inhabited

namespace ISO15765Transfer

/-- `clear()`: back to `START_STATE` with all per-transfer counters zeroed. -/
def clear (t : ISO15765Transfer) : ISO15765Transfer :=
  { t with mState := .START_STATE, mOffset := 0, mSequence := 0, mBs := 0, mStmin := 0 }

/-- The constructor: pids decoded from the three filter messages, then
`clear()`.  `m0` stands for the uninitialised `mMessage` member. -/
def mk' (maskMsg patternMsg fcMsg m0 : PASSTHRU_MSG) : ISO15765Transfer where
  mState := .START_STATE
  mOffset := 0
  mSequence := 0
  mBs := 0
  mStmin := 0
  mMaskPid := data2pid maskMsg.Data
  mPatternPid := data2pid patternMsg.Data
  mFlowControlPid := data2pid fcMsg.Data
  mMessage := m0

end ISO15765Transfer

/-- `--mBs` on an `unsigned long`: wraps at `2 ^ 64`.  (Irreducible so that
the definitional unifier never tries to evaluate the huge modulus; the
`unfold` equations below are the only interface the proofs use.) -/
@[irreducible] def decBs (b : Nat) : Nat := (b + (ULONG_MOD - 1)) % ULONG_MOD

/-- Oracles for the wrapped CAN channel, the clock and the configuration
store.  `time i` is the value of the unsigned `Timeout` variable at the i-th
recomputation (`Timeout <= 0` on an unsigned is `Timeout == 0`); `writeOk w`
says whether the w-th underlying `writeMsgs` reported exactly one frame
written; `read r` is the r-th underlying `readMsgs` result (`none` when it
did not return exactly one frame). -/
structure Env where
  time : Nat → Nat
  writeOk : Nat → Bool
  read : Nat → Option PASSTHRU_MSG
  cfgBS : Nat
  cfgSTmin : Nat

/-!  ### Device connect (`DeviceISO15765::connect`)  -/

/-- `DeviceISO15765::connect`, observed as the pair (protocol id passed to the
wrapped device, whether the returned channel is wrapped in `ChannelISO15765`).
The code decrements the id when its low 13 bits equal `ISO15765`, delegates,
and then re-tests the (already decremented) id before wrapping. -/
def connect (ProtocolID : Nat) : Nat × Bool :=
  let p := if ProtocolID &&& 0x1FFF = ISO15765 then ProtocolID - 1 else ProtocolID
  (p, decide (p &&& 0x1FFF = ISO15765))

/-!  ### Channel adapter clear operations  -/

/-- `ChannelISO15765::clearMessageFilters`: empty the registry, `return false`. -/
def clearMessageFilters (filters : List ISO15765Transfer) :
    List ISO15765Transfer × Bool :=
  ([], false)

/-- `ChannelISO15765::clearTxBuffers`: unsupported, `return false`. -/
def clearTxBuffers : Bool := false

/-- `ChannelISO15765::clearRxBuffers`: unsupported, `return false`. -/
def clearRxBuffers : Bool := false

/-- `ChannelISO15765::clearPeriodicMessages`: unsupported, `return false`. -/
def clearPeriodicMessages : Bool := false

/-!  ### The outbound write path (`ISO15765Transfer::writeMsg`)  -/

/-- Events observable on the wrapped CAN channel during one `writeMsg`:
frames successfully written, and validated Flow Control frames received. -/
inductive WEvent where
  | wrote (m : PASSTHRU_MSG)
  | gotFC (m : PASSTHRU_MSG)

/-- Project the frame out of a `wrote` event. -/
def wroteFrame : WEvent → Option PASSTHRU_MSG
  | .wrote m => some m
  | _ => none

/-- How `writeMsg` returned: `ok` (`return true`), `timedOut` (the bare
`return false` when the recomputed unsigned `Timeout` is 0), `protoFail`
(every `goto fail`, which runs `clear()` first), `invalidMsg` (the
`ERR_INVALID_MSG` exception), or `noFuel` (model artefact: fuel ran out). -/
inductive WRes where
  | ok
  | timedOut
  | protoFail
  | invalidMsg
  | noFuel
deriving DecidableEq, Repr

/-- Result of (the model of) `writeMsg`: outcome, final transfer, trace. -/
structure WOut where
  res : WRes
  t : ISO15765Transfer
  trace : List WEvent

/-- The `START_STATE` arm of the write loop up to (not including) the
underlying write: sets `mOffset = 4`, prepares the headers, chooses
Single Frame versus First Frame, fills the PCI/length/data bytes, advances
`mOffset`, applies padding when `ISO15765_FRAME_PAD` is set.  Returns the
frame handed to the channel and the mutated transfer (whose `mMessage` is the
scratch buffer the frame was built in). -/
def startStep (msg : PASSTHRU_MSG) (t : ISO15765Transfer) :
    PASSTHRU_MSG × ISO15765Transfer :=
  let t1 := { t with mOffset := 4 }
  let tmp0 := prepareSentMessageHeaders msg t.mMessage
  let size0 := getRemainingSize msg t1.mOffset
  if size0 < msg.DataSize - t1.mOffset then
    let fullsize := msg.DataSize - t1.mOffset
    let d1 := setData tmp0.Data 4
      ((getPci .FirstFrame &&& 0xF0) ||| ((fullsize >>> 8) &&& 0x0F))
    let d2 := setData d1 5 (fullsize &&& 0xFF)
    let t2 := { t1 with mSequence := t1.mSequence + 1 }
    let d3 := copyData d2 6 msg.Data t1.mOffset 6
    let tmp1 := { tmp0 with Data := d3, DataSize := 4 + 1 + 1 + 6 }
    let t3 := { t2 with mOffset := t2.mOffset + 6 }
    let tmp2 := if msg.TxFlags &&& ISO15765_FRAME_PAD ≠ 0 then paddingMessage tmp1 else tmp1
    (tmp2, { t3 with mMessage := tmp2 })
  else
    let size := size0
    let d1 := setData tmp0.Data 4
      ((getPci .SingleFrame &&& 0xF0) ||| (size &&& 0x0F))
    let d2 := copyData d1 5 msg.Data t1.mOffset size
    let tmp1 := { tmp0 with Data := d2, DataSize := 4 + 1 + size }
    let t3 := { t1 with mOffset := t1.mOffset + size }
    let tmp2 := if msg.TxFlags &&& ISO15765_FRAME_PAD ≠ 0 then paddingMessage tmp1 else tmp1
    (tmp2, { t3 with mMessage := tmp2 })

/-- The `BLOCK_STATE` arm up to (not including) the underlying write: build
a Consecutive Frame with sequence nibble `mSequence & 0x0F`, post-increment
the sequence, advance `mOffset`, apply padding when requested. -/
def blockStep (msg : PASSTHRU_MSG) (t : ISO15765Transfer) :
    PASSTHRU_MSG × ISO15765Transfer :=
  let tmp0 := prepareSentMessageHeaders msg t.mMessage
  let size := getRemainingSize msg t.mOffset
  let d1 := setData tmp0.Data 4
    ((getPci .ConsecutiveFrame &&& 0xF0) ||| (t.mSequence &&& 0x0F))
  let t1 := { t with mSequence := t.mSequence + 1 }
  let d2 := copyData d1 5 msg.Data t.mOffset size
  let tmp1 := { tmp0 with Data := d2, DataSize := 4 + 1 + size }
  let t2 := { t1 with mOffset := t1.mOffset + size }
  let tmp2 := if msg.TxFlags &&& ISO15765_FRAME_PAD ≠ 0 then paddingMessage tmp1 else tmp1
  (tmp2, { t2 with mMessage := tmp2 })

/-- The `while (msg.DataSize > mOffset)` loop of `writeMsg`.  One unit of
fuel per iteration; `env.time i` is the recomputed unsigned `Timeout` at the
i-th iteration, `w`/`r` index the underlying write/read streams. -/
def wLoop (env : Env) (msg : PASSTHRU_MSG) (fuel : Nat)
    (t : ISO15765Transfer) (i w r : Nat) : WOut :=
    if msg.DataSize ≤ t.mOffset then { res := .ok, t := t.clear, trace := [] }
    else
      match fuel with
      | 0 => { res := .noFuel, t := t, trace := [] }
      | fuel + 1 =>
        if env.time i = 0 then { res := .timedOut, t := t, trace := [] }
        else
          match t.mState with
          | .START_STATE =>
            let p := startStep msg t
            if env.writeOk w then
              let rest := wLoop env msg fuel
                { p.2 with mState := .FLOW_CONTROL_STATE } (i + 1) (w + 1) r
              { rest with trace := .wrote p.1 :: rest.trace }
            else
              { res := .protoFail, t := p.2.clear, trace := [] }
          | .FLOW_CONTROL_STATE =>
            match env.read r with
            | none => { res := .protoFail, t := t.clear, trace := [] }
            | some m =>
              let t1 := { t with mMessage := m }
              if m.DataSize < 4 then
                { res := .protoFail, t := t1.clear, trace := [] }
              else if ¬ (data2pid m.Data &&& t.mMaskPid = t.mPatternPid) then
                { res := .protoFail, t := t1.clear, trace := [] }
              else if ¬ (getFrameName (m.Data 4) = .FlowControl) then
                { res := .protoFail, t := t1.clear, trace := [] }
              else
                let t2 := { t1 with
                  mBs := m.Data 5
                  mStmin := m.Data 6
                  mState := .BLOCK_STATE }
                let rest := wLoop env msg fuel t2 (i + 1) w (r + 1)
                { rest with trace := .gotFC m :: rest.trace }
          | .BLOCK_STATE =>
            let p := blockStep msg t
            if env.writeOk w then
              let bs1 := decBs p.2.mBs
              let t4 := { p.2 with
                mBs := bs1
                mState := if bs1 = 0 then .FLOW_CONTROL_STATE else .BLOCK_STATE }
              let rest := wLoop env msg fuel t4 (i + 1) (w + 1) r
              { rest with trace := .wrote p.1 :: rest.trace }
            else
              { res := .protoFail, t := p.2.clear, trace := [] }

/-- `ISO15765Transfer::writeMsg`: throw `ERR_INVALID_MSG` when the logical
message has no room for the 4 PID bytes; fail (with `clear()`) when the
transfer is not idle; otherwise run the loop. -/
def writeMsg (env : Env) (t : ISO15765Transfer) (msg : PASSTHRU_MSG)
    (fuel : Nat) : WOut :=
  if msg.DataSize < 4 then { res := .invalidMsg, t := t, trace := [] }
  else if ¬ (t.mState = .START_STATE) then
    { res := .protoFail, t := t.clear, trace := [] }
  else wLoop env msg fuel t 0 0 0

/-!  ### The inbound read path (`ISO15765Transfer::readMsg`)  -/

/-- `sendFlowControlMessage`: load `ISO15765_BS`/`ISO15765_STMIN` from the
channel configuration into `mBs`/`mStmin`, build the Flow Control frame
(PID = `mFlowControlPid`, PCI `0x30`, byte 5 = BS, byte 6 = STmin, padded to
12 bytes) and write it.  The local `tmp_msg` buffer starts zeroed in the
model; the C code never reads its bytes beyond index 11.  Returns whether
exactly one frame was written, the mutated transfer, and the frame. -/
def sendFlowControlMessage (env : Env) (t : ISO15765Transfer) (w : Nat) :
    Bool × ISO15765Transfer × PASSTHRU_MSG :=
  let bs := env.cfgBS
  let stmin := env.cfgSTmin
  let t1 := { t with mBs := bs, mStmin := stmin }
  let d1 := pid2Data t.mFlowControlPid (fun _ => 0)
  let d2 := setData d1 4 (getPci .FlowControl)
  let d3 := setData d2 5 (bs % 256)
  let d4 := setData d3 6 (stmin % 256)
  let m0 : PASSTHRU_MSG :=
    { ProtocolID := CAN, RxStatus := 0, TxFlags := 0, Timestamp := 0,
      DataSize := 4 + 1 + 1 + 1, ExtraDataIndex := 0, Data := d4 }
  let m1 := paddingMessage m0
  (env.writeOk w, t1, m1)

/-- Result of one `readMsg` call.  The C function returns `true` exactly on
`complete`; `pending` and `failed` both return `false`, but only `failed`
(the `goto fail` paths) runs `clear()`. -/
inductive RRes where
  | complete
  | pending
  | failed
deriving DecidableEq, Repr

/-- Output of (the model of) `readMsg`: outcome, final transfer, the logical
message copied to `out_msg` on completion, the Flow Control frames
successfully written, and how many underlying writes were consumed. -/
structure ROut where
  res : RRes
  t : ISO15765Transfer
  out : Option PASSTHRU_MSG
  sentFC : List PASSTHRU_MSG
  wUsed : Nat

/-- `ISO15765Transfer::readMsg`: feed one matched CAN frame to the transfer.
Precondition checks (size, PID), then dispatch on the state: `START_STATE`
accepts a Single Frame (immediately complete) or a First Frame (send a Flow
Control, go to `BLOCK_STATE`); `BLOCK_STATE` checks the sequence nibble,
copies the chunk, possibly sends a new Flow Control when `--mBs == 0`; any
other state fails.  Completion is detected by `mOffset >= DataSize` of the
reassembly buffer. -/
def readMsg (env : Env) (t : ISO15765Transfer) (inMsg : PASSTHRU_MSG)
    (w : Nat) : ROut :=
  if inMsg.DataSize < 4 then
    { res := .failed, t := t.clear, out := none, sentFC := [], wUsed := 0 }
  else if ¬ (data2pid inMsg.Data &&& t.mMaskPid = t.mPatternPid) then
    { res := .failed, t := t.clear, out := none, sentFC := [], wUsed := 0 }
  else
    match t.mState with
    | .START_STATE =>
      let buf0 := prepareReceivedMessageHeaders inMsg t.mMessage
      match getFrameName (inMsg.Data 4) with
      | .SingleFrame =>
        let size := inMsg.Data 4 &&& 0x0F
        let buf1 := { buf0 with
          DataSize := 4 + size
          Data := copyData buf0.Data 4 inMsg.Data 5 size }
        let t1 := { t with mOffset := 4 + size, mMessage := buf1 }
        if 4 + size ≥ buf1.DataSize then
          { res := .complete, t := t1.clear, out := some buf1, sentFC := [],
            wUsed := 0 }
        else
          { res := .pending, t := t1, out := none, sentFC := [], wUsed := 0 }
      | .FirstFrame =>
        let fullsize := ((inMsg.Data 4 &&& 0x0F) <<< 8) |||
          (inMsg.Data 5 &&& 0xFF)
        let buf1 := { buf0 with
          DataSize := 4 + fullsize
          Data := copyData buf0.Data 4 inMsg.Data 6 6 }
        let t1 := { t with
          mSequence := t.mSequence + 1
          mOffset := 4 + 6
          mMessage := buf1 }
        let fc := sendFlowControlMessage env t1 w
        if fc.1 = false then
          { res := .failed, t := fc.2.1.clear, out := none, sentFC := [],
            wUsed := 1 }
        else
          let t3 : ISO15765Transfer := { fc.2.1 with mState := .BLOCK_STATE }
          if buf1.DataSize ≤ t3.mOffset then
            { res := .complete, t := t3.clear, out := some buf1,
              sentFC := [fc.2.2], wUsed := 1 }
          else
            { res := .pending, t := t3, out := none, sentFC := [fc.2.2],
              wUsed := 1 }
      | _ =>
        { res := .failed, t := { t with mMessage := buf0 }.clear, out := none,
          sentFC := [], wUsed := 0 }
    | .BLOCK_STATE =>
      if ¬ (inMsg.Data 4 &&& 0xF = t.mSequence % 0x10) then
        { res := .failed, t := t.clear, out := none, sentFC := [], wUsed := 0 }
      else
        let size := getRemainingSize t.mMessage t.mOffset
        let buf1 := { t.mMessage with
          Data := copyData t.mMessage.Data t.mOffset inMsg.Data 5 size }
        let t1 := { t with
          mSequence := t.mSequence + 1
          mOffset := t.mOffset + size
          mMessage := buf1 }
        let bs1 := decBs t1.mBs
        let t2 := { t1 with mBs := bs1 }
        if bs1 = 0 then
          let fc := sendFlowControlMessage env t2 w
          if fc.1 = false then
            { res := .failed, t := fc.2.1.clear, out := none, sentFC := [],
              wUsed := 1 }
          else if fc.2.1.mOffset ≥ buf1.DataSize then
            { res := .complete, t := fc.2.1.clear, out := some buf1,
              sentFC := [fc.2.2], wUsed := 1 }
          else
            { res := .pending, t := fc.2.1, out := none, sentFC := [fc.2.2],
              wUsed := 1 }
        else
          if t2.mOffset ≥ buf1.DataSize then
            { res := .complete, t := t2.clear, out := some buf1, sentFC := [],
              wUsed := 0 }
          else
            { res := .pending, t := t2, out := none, sentFC := [], wUsed := 0 }
    | .FLOW_CONTROL_STATE =>
      { res := .failed, t := t.clear, out := none, sentFC := [], wUsed := 0 }

/-!  ### The channel adapter batch read (`ChannelISO15765::readMsgs`)  -/

/-- Output of the batch read: the caller's message array (as a function from
slot index), the count stored through `pNumMsgs`, and the final transfers. -/
structure CROut where
  outArr : Nat → PASSTHRU_MSG
  count : Nat
  transfers : List ISO15765Transfer

/-- The nested loops of `ChannelISO15765::readMsgs`, flattened: the outer
`for` counts completed slots (`filled`), the inner `while (true)` reads one
CAN frame per fuel unit, routes it by pattern (first match wins) and feeds it
to that transfer.  On `complete` the assembled message is stored through
`pMsg` — the pointer is never advanced, so it always lands in slot 0 — and
the count is incremented. -/
def chanReadLoop (env : Env) (n : Nat) :
    Nat → (Nat → PASSTHRU_MSG) → List ISO15765Transfer → Nat → Nat → Nat →
      Nat → CROut
  | fuel, outArr, ts, filled, i, w, r =>
    if n ≤ filled then { outArr := outArr, count := filled, transfers := ts }
    else
      match fuel with
      | 0 => { outArr := outArr, count := filled, transfers := ts }
      | fuel + 1 =>
        if env.time i = 0 then
          { outArr := outArr, count := filled, transfers := ts }
        else
          match env.read r with
          | none => { outArr := outArr, count := filled, transfers := ts }
          | some frame =>
            match ts.findIdx? (fun tr =>
                tr.mPatternPid == data2pid frame.Data &&& tr.mMaskPid) with
            | none => chanReadLoop env n fuel outArr ts filled (i + 1) w (r + 1)
            | some idx =>
              let tr := ts.getD idx default
              let ro := readMsg env tr frame w
              let ts1 := ts.set idx ro.t
              match ro.res with
              | .complete =>
                let outArr1 := fun j =>
                  if j = 0 then ro.out.getD default else outArr j
                chanReadLoop env n fuel outArr1 ts1 (filled + 1) (i + 1)
                  (w + ro.wUsed) (r + 1)
              | _ =>
                chanReadLoop env n fuel outArr ts1 filled (i + 1)
                  (w + ro.wUsed) (r + 1)

/-- `ChannelISO15765::readMsgs` with batch capacity `n` and initial contents
`outArr` of the caller's array. -/
def readMsgs (env : Env) (n : Nat) (outArr : Nat → PASSTHRU_MSG)
    (ts : List ISO15765Transfer) (fuel : Nat) : CROut :=
  chanReadLoop env n fuel outArr ts 0 0 0 0

/-!  ### Concrete test vectors  -/

/-- A fresh transfer with the given mask/pattern/flow-control pids. -/
def freshT (mask pattern fc : Nat) : ISO15765Transfer where
  mState := .START_STATE
  mOffset := 0
  mSequence := 0
  mBs := 0
  mStmin := 0
  mMaskPid := mask
  mPatternPid := pattern
  mFlowControlPid := fc
  mMessage := default

/-- A 12-byte logical message (8 payload bytes) with PID `0x000007E0`. -/
def msgC3 : PASSTHRU_MSG where
  ProtocolID := ISO15765
  RxStatus := 0
  TxFlags := 0
  Timestamp := 0
  DataSize := 12
  ExtraDataIndex := 0
  Data := fun i => i % 256

/-- Clock oracle that times out from the second poll on; writes succeed. -/
def envC3 : Env where
  time := fun i => if i = 0 then 100 else 0
  writeOk := fun _ => true
  read := fun _ => none
  cfgBS := 0
  cfgSTmin := 0

/-- Scenario S1: PID `0x18DA10F1`, payload `01 02 03`, `FRAME_PAD` set. -/
def msgS1 : PASSTHRU_MSG where
  ProtocolID := ISO15765
  RxStatus := 0
  TxFlags := ISO15765_FRAME_PAD
  Timestamp := 0
  DataSize := 7
  ExtraDataIndex := 0
  Data := fun i =>
    if i = 0 then 0x18 else if i = 1 then 0xDA else if i = 2 then 0x10
    else if i = 3 then 0xF1 else if i = 4 then 0x01 else if i = 5 then 0x02
    else if i = 6 then 0x03 else 0

/-- Scenario S2: PID `0x7E0`, 20-byte payload `00 01 … 13`, no padding. -/
def msgS2 : PASSTHRU_MSG where
  ProtocolID := ISO15765
  RxStatus := 0
  TxFlags := 0
  Timestamp := 0
  DataSize := 24
  ExtraDataIndex := 0
  Data := fun i =>
    if i = 2 then 0x07 else if i = 3 then 0xE0 else if i < 4 then 0
    else (i - 4) % 256

/-- A 36-byte-payload message with PID `0x7E0`, for the pacing scenarios. -/
def msgS6 : PASSTHRU_MSG where
  ProtocolID := ISO15765
  RxStatus := 0
  TxFlags := 0
  Timestamp := 0
  DataSize := 40
  ExtraDataIndex := 0
  Data := fun i =>
    if i = 2 then 0x07 else if i = 3 then 0xE0 else if i < 4 then 0
    else (i - 4) % 256

/-- A Flow Control frame with PID `0x7E8`, the given block size, STmin 0. -/
def fcFrame (bs : Nat) : PASSTHRU_MSG where
  ProtocolID := CAN
  RxStatus := 0
  TxFlags := 0
  Timestamp := 0
  DataSize := 12
  ExtraDataIndex := 0
  Data := fun i =>
    if i = 2 then 0x07 else if i = 3 then 0xE8 else if i = 4 then 0x30
    else if i = 5 then bs else 0

/-- Oracle that always has time left, always writes one frame, and always
answers a read with the Flow Control frame `fcFrame bs`. -/
def envS6 (bs : Nat) : Env where
  time := fun _ => 50
  writeOk := fun _ => true
  read := fun _ => some (fcFrame bs)
  cfgBS := 0
  cfgSTmin := 0

/-- A transfer mid-write: First Frame already sent, awaiting Flow Control. -/
def tS6 : ISO15765Transfer :=
  { freshT 0xFFFFFFFF 0x7E8 0x7E0 with
    mState := .FLOW_CONTROL_STATE
    mOffset := 10
    mSequence := 1 }

/-- A logical message too small to carry the 4-byte PID prefix. -/
def msgTiny : PASSTHRU_MSG where
  ProtocolID := ISO15765
  RxStatus := 0
  TxFlags := 0
  Timestamp := 0
  DataSize := 2
  ExtraDataIndex := 0
  Data := fun _ => 0

/-- Oracle whose underlying writes always fail (`count != 1`). -/
def envWFail : Env where
  time := fun _ => 100
  writeOk := fun _ => false
  read := fun _ => none
  cfgBS := 0
  cfgSTmin := 0

/-- A CAN frame whose PID does not match the `0x7E8` pattern. -/
def frameBadPid : PASSTHRU_MSG where
  ProtocolID := CAN
  RxStatus := 0
  TxFlags := 0
  Timestamp := 0
  DataSize := 12
  ExtraDataIndex := 0
  Data := fun _ => 0

/-- A complete Single Frame carrying one payload byte `b`, PID `0x7E8`. -/
def frameSF (b : Nat) : PASSTHRU_MSG where
  ProtocolID := CAN
  RxStatus := 0
  TxFlags := 0
  Timestamp := 0
  DataSize := 12
  ExtraDataIndex := 0
  Data := fun i =>
    if i = 2 then 0x07 else if i = 3 then 0xE8 else if i = 4 then 0x01
    else if i = 5 then b else 0

/-- Oracle delivering two complete Single Frames (payload bytes `0xAA` then
`0xBB`); the clock never expires and writes succeed. -/
def envC2 : Env where
  time := fun _ => 50
  writeOk := fun _ => true
  read := fun r =>
    if r = 0 then some (frameSF 0xAA)
    else if r = 1 then some (frameSF 0xBB) else none
  cfgBS := 0
  cfgSTmin := 0

/-- The per-transfer fields are exactly as `clear()` leaves them. -/
def Cleared (t : ISO15765Transfer) : Prop :=
  t.mState = .START_STATE ∧ t.mOffset = 0 ∧ t.mSequence = 0 ∧ t.mBs = 0 ∧
    t.mStmin = 0

/-- The documented transfer invariant: idle exactly when all counters are 0. -/
def StartInv (t : ISO15765Transfer) : Prop :=
  t.mState = .START_STATE ↔
    (t.mOffset = 0 ∧ t.mSequence = 0 ∧ t.mBs = 0 ∧ t.mStmin = 0)

instance (t : ISO15765Transfer) : Decidable (Cleared t) := by
  unfold Cleared; infer_instance

instance (t : ISO15765Transfer) : Decidable (StartInv t) := by
  unfold StartInv; infer_instance

/-!  ### Arithmetic helpers for the bit-level reasoning  -/

theorem or_mul_add (n a b : Nat) (h : b < 2 ^ n) :
    (2 ^ n * a) ||| b = 2 ^ n * a + b := by
  apply Nat.eq_of_testBit_eq
  intro j
  rw [Nat.testBit_mul_pow_two_add a h j]
  have hshl : 2 ^ n * a = a <<< n := by rw [Nat.shiftLeft_eq]; ring
  by_cases hj : j < n
  · have h1 : Nat.testBit (2 ^ n * a) j = false := by
      rw [hshl]
      simp only [Nat.testBit_shiftLeft]
      simp [Nat.not_le.mpr hj]
    simp [Nat.testBit_or, h1, hj]
  · have hbf : Nat.testBit b j = false :=
      Nat.testBit_lt_two_pow
        (lt_of_lt_of_le h (Nat.pow_le_pow_right (by norm_num) (by omega)))
    have h1 : Nat.testBit (2 ^ n * a) j = Nat.testBit a (j - n) := by
      rw [hshl]
      simp only [Nat.testBit_shiftLeft]
      simp [Nat.le_of_not_lt hj]
    simp [Nat.testBit_or, h1, hbf, hj]

theorem shl_or_add (n a b : Nat) (h : b < 2 ^ n) :
    (a <<< n) ||| b = 2 ^ n * a + b := by
  rw [Nat.shiftLeft_eq, Nat.mul_comm, or_mul_add n a b h]

theorem and_F0_shr4 (d : Nat) : (d &&& 0xF0) >>> 4 = (d >>> 4) % 16 := by
  have h240 : (0xF0 : Nat) = 15 <<< 4 := by decide
  have h16 : (16 : Nat) = 2 ^ 4 := by norm_num
  have h15 : (15 : Nat) = 2 ^ 4 - 1 := by norm_num
  apply Nat.eq_of_testBit_eq
  intro i
  rw [h240, h16]
  simp only [Nat.testBit_shiftRight, Nat.testBit_and, Nat.testBit_shiftLeft,
    Nat.testBit_mod_two_pow, h15, Nat.testBit_two_pow_sub_one, ge_iff_le,
    Nat.add_sub_cancel_left]
  cases h : Nat.testBit d (4 + i) <;>
    simp [h, show 4 ≤ 4 + i from by omega, Bool.and_comm]

/-!  ### C7: pid pack/unpack roundtrip  -/

/-- C7.  For every 32-bit `pid`, decoding the four bytes written by
`pid2Data` yields `pid &&& 0x1FFFFFFF`: packing masks byte 0 to its low five
bits, so pack-then-unpack is the identity on 29-bit identifiers. -/
theorem pid_pack_unpack_roundtrip (pid : Nat) (hpid : pid < 2 ^ 32) (d : Nat → Nat) :
    data2pid (pid2Data pid d) = pid &&& 0x1FFFFFFF := by
  have b0 : pid2Data pid d 0 = 0x1F &&& (pid >>> 24) := rfl
  have b1 : pid2Data pid d 1 = 0xFF &&& (pid >>> 16) := rfl
  have b2 : pid2Data pid d 2 = 0xFF &&& (pid >>> 8) := rfl
  have b3 : pid2Data pid d 3 = 0xFF &&& (pid >>> 0) := rfl
  have h5 : (0x1F : Nat) = 2 ^ 5 - 1 := by norm_num
  have h8 : (0xFF : Nat) = 2 ^ 8 - 1 := by norm_num
  have h29 : (0x1FFFFFFF : Nat) = 2 ^ 29 - 1 := by norm_num
  simp only [data2pid, b0, b1, b2, b3, Nat.shiftRight_zero]
  apply Nat.eq_of_testBit_eq
  intro i
  rw [h5, h8, h29]
  simp only [Nat.testBit_or, Nat.testBit_and, Nat.testBit_shiftLeft,
    Nat.testBit_shiftRight, Nat.testBit_two_pow_sub_one, ge_iff_le,
    Nat.sub_zero, Nat.zero_le, decide_True, Bool.true_and]
  by_cases h1 : i < 8
  · simp [show ¬ 24 ≤ i by omega, show ¬ 16 ≤ i by omega,
      show ¬ 8 ≤ i by omega, show i < 29 by omega, h1]
  by_cases h2 : i < 16
  · simp [show ¬ 24 ≤ i by omega, show ¬ 16 ≤ i by omega,
      show 8 ≤ i by omega, show i - 8 < 8 by omega, show ¬ i < 8 by omega,
      show i < 29 by omega, show 8 + (i - 8) = i by omega]
  by_cases h3 : i < 24
  · simp [show ¬ 24 ≤ i by omega, show 16 ≤ i by omega, show 8 ≤ i by omega,
      show i - 16 < 8 by omega, show ¬ i - 8 < 8 by omega,
      show ¬ i < 8 by omega, show i < 29 by omega,
      show 16 + (i - 16) = i by omega]
  by_cases h4 : i < 29
  · simp [show 24 ≤ i by omega, show 16 ≤ i by omega, show 8 ≤ i by omega,
      show i - 24 < 5 by omega, show ¬ i - 16 < 8 by omega,
      show ¬ i - 8 < 8 by omega, show ¬ i < 8 by omega, h4,
      show 24 + (i - 24) = i by omega]
  · simp [show 24 ≤ i by omega, show 16 ≤ i by omega, show 8 ≤ i by omega,
      show ¬ i - 24 < 5 by omega, show ¬ i - 16 < 8 by omega,
      show ¬ i - 8 < 8 by omega, show ¬ i < 8 by omega,
      show ¬ i < 29 by omega]

/-- Witness for C7 at the concrete 29-bit identifier `0x18DA10F1`. -/
theorem pid_pack_unpack_roundtrip_witness :
    data2pid (pid2Data 0x18DA10F1 (fun _ => 0)) = 0x18DA10F1 &&& 0x1FFFFFFF :=
  pid_pack_unpack_roundtrip 0x18DA10F1 (by norm_num) (fun _ => 0)

/-!  ### C1: connect protocol translation  -/

/-- C1.  `connect` on a protocol id whose low 13 bits equal `ISO15765`
delegates with the CAN protocol id (one less), but the guard for wrapping the
returned channel re-tests the already decremented id, so the returned channel
is never wrapped in a `ChannelISO15765`: the second component is `false` for
every input, contradicting both the spec and the evident intent of the
dead wrapping branch. -/
theorem connect_rewrites_to_can_but_never_wraps :
    connect ISO15765 = (CAN, false) ∧ ∀ p : Nat, (connect p).2 = false := by
  constructor
  · rfl
  · intro p
    have hmask : ∀ q : Nat, q &&& 0x1FFF = q % 8192 := by
      intro q
      have h13 : (0x1FFF : Nat) = 2 ^ 13 - 1 := by norm_num
      rw [h13, Nat.and_pow_two_sub_one_eq_mod]
    simp only [connect, hmask, ISO15765]
    by_cases h : p % 8192 = 6
    · simp only [if_pos h, decide_eq_false_iff_not]
      omega
    · simp only [if_neg h, decide_eq_false_iff_not]
      exact h

/-!  ### C10: clear operations  -/

/-- C10.  `clearMessageFilters` empties the registry for every channel state,
yet returns `false` exactly like the unsupported `clearTxBuffers`,
`clearRxBuffers` and `clearPeriodicMessages`, so the return value cannot
distinguish its success from their failure. -/
theorem clearMessageFilters_clears_but_returns_false :
    (∀ fs : List ISO15765Transfer, clearMessageFilters fs = ([], false)) ∧
      clearTxBuffers = false ∧ clearRxBuffers = false ∧
      clearPeriodicMessages = false ∧
      (∀ fs : List ISO15765Transfer,
        (clearMessageFilters fs).2 = clearTxBuffers ∧
        (clearMessageFilters fs).2 = clearRxBuffers ∧
        (clearMessageFilters fs).2 = clearPeriodicMessages) := by
  refine ⟨fun fs => rfl, rfl, rfl, rfl, fun fs => ⟨rfl, rfl, rfl⟩⟩

/-!  ### Basic facts about the write loop  -/

theorem cleared_clear (t : ISO15765Transfer) : Cleared t.clear := by
  simp [Cleared, ISO15765Transfer.clear]

/-- Every `ok` or `protoFail` return of the write loop has run `clear()`
first, and the loop never produces the `invalidMsg` outcome. -/
theorem wLoop_basic (env : Env) (msg : PASSTHRU_MSG) :
    ∀ fuel t i w r,
      (((wLoop env msg fuel t i w r).res = .ok ∨
          (wLoop env msg fuel t i w r).res = .protoFail) →
        Cleared (wLoop env msg fuel t i w r).t) ∧
      (wLoop env msg fuel t i w r).res ≠ .invalidMsg := by
  intro fuel
  induction fuel with
  | zero =>
    intro t i w r
    simp only [wLoop]
    split
    · exact ⟨fun _ => cleared_clear t, by simp⟩
    · exact ⟨by simp, by simp⟩
  | succ n ih =>
    intro t i w r
    simp only [wLoop]
    split
    · exact ⟨fun _ => cleared_clear t, by simp⟩
    split
    · exact ⟨by simp, by simp⟩
    split
    · -- START_STATE
      split
      · exact ⟨fun h => (ih _ _ _ _).1 (by simpa using h), by simpa using (ih _ _ _ _).2⟩
      · exact ⟨fun _ => cleared_clear _, by simp⟩
    · -- FLOW_CONTROL_STATE
      split
      · exact ⟨fun _ => cleared_clear _, by simp⟩
      split
      · exact ⟨fun _ => cleared_clear _, by simp⟩
      split
      · exact ⟨fun _ => cleared_clear _, by simp⟩
      split
      · exact ⟨fun _ => cleared_clear _, by simp⟩
      · exact ⟨fun h => (ih _ _ _ _).1 (by simpa using h), by simpa using (ih _ _ _ _).2⟩
    · -- BLOCK_STATE
      split
      · exact ⟨fun h => (ih _ _ _ _).1 (by simpa using h), by simpa using (ih _ _ _ _).2⟩
      · exact ⟨fun _ => cleared_clear _, by simp⟩

/-!  ### C9: the `InvalidMessage` error  -/

/-- C9.  `writeMsg` raises `ERR_INVALID_MSG` if and only if the outbound
logical message is smaller than 4 bytes, and in that case it does so before
writing any frame and without touching any transfer field. -/
theorem writeMsg_invalid_message_iff (env : Env) (t : ISO15765Transfer)
    (msg : PASSTHRU_MSG) (fuel : Nat) :
    ((writeMsg env t msg fuel).res = .invalidMsg ↔ msg.DataSize < 4) ∧
      (msg.DataSize < 4 →
        (writeMsg env t msg fuel).t = t ∧
          (writeMsg env t msg fuel).trace = []) := by
  by_cases h4 : msg.DataSize < 4
  · simp [writeMsg, h4]
  · refine ⟨⟨fun h => ?_, fun h => absurd h h4⟩, fun h => absurd h h4⟩
    exfalso
    simp only [writeMsg, if_neg h4] at h
    by_cases hs : ¬ (t.mState = .START_STATE)
    · rw [if_pos hs] at h
      simp at h
    · rw [if_neg hs] at h
      exact (wLoop_basic env msg fuel t 0 0 0).2 h

/-- Witness for C9: a 2-byte message raises `InvalidMessage` and leaves the
transfer untouched. -/
theorem writeMsg_invalid_message_iff_witness :
    msgTiny.DataSize < 4 ∧
      (writeMsg envC3 (freshT 0 0 0) msgTiny 5).res = .invalidMsg ∧
      (writeMsg envC3 (freshT 0 0 0) msgTiny 5).t = freshT 0 0 0 ∧
      (writeMsg envC3 (freshT 0 0 0) msgTiny 5).trace = [] := by
  have h := writeMsg_invalid_message_iff envC3 (freshT 0 0 0) msgTiny 5
  have h4 : msgTiny.DataSize < 4 := by decide
  exact ⟨h4, h.1.mpr h4, (h.2 h4).1, (h.2 h4).2⟩

/-!  ### C3: reset on failure  -/

/-- The transfer produced by `freshT 0xFFFFFFFF 0x7E8 0x7E0` after the write
loop timed out one iteration after emitting a First Frame. -/
theorem writeMsg_timeout_leaves_transfer_unreset :
    (writeMsg envC3 (freshT 0xFFFFFFFF 0x7E8 0x7E0) msgC3 9).res = .timedOut ∧
      (writeMsg envC3 (freshT 0xFFFFFFFF 0x7E8 0x7E0) msgC3 9).t.mOffset = 10 ∧
      (writeMsg envC3 (freshT 0xFFFFFFFF 0x7E8 0x7E0) msgC3 9).t.mState =
        .FLOW_CONTROL_STATE ∧
      ¬ Cleared (writeMsg envC3 (freshT 0xFFFFFFFF 0x7E8 0x7E0) msgC3 9).t := by
  refine ⟨by decide, by decide, by decide, ?_⟩
  intro hc
  have := hc.2.1
  revert this
  decide

/-- C3 (amended).  On every failure return other than deadline expiry —
wrong state, wrong PID, wrong frame kind, wrong sequence number, or an
underlying read/write that did not transfer exactly one frame — `clear()`
has run: the transfer is back in `START_STATE` with `offset`, `sequence`,
`bs`, `stmin` all zero.  (The deadline-expiry `return false` of `writeMsg`
skips `clear()`, see `writeMsg_timeout_leaves_transfer_unreset`.) -/
theorem nontimeout_failure_resets_transfer (env : Env) (t : ISO15765Transfer)
    (msg inMsg : PASSTHRU_MSG) (fuel w : Nat) :
    ((writeMsg env t msg fuel).res = .protoFail →
      Cleared (writeMsg env t msg fuel).t) ∧
      ((readMsg env t inMsg w).res = .failed →
        Cleared (readMsg env t inMsg w).t) := by
  constructor
  · intro h
    simp only [writeMsg] at h ⊢
    by_cases h4 : msg.DataSize < 4
    · rw [if_pos h4] at h
      simp at h
    · rw [if_neg h4] at h ⊢
      by_cases hs : ¬ (t.mState = .START_STATE)
      · rw [if_pos hs]
        exact cleared_clear t
      · rw [if_neg hs] at h ⊢
        exact (wLoop_basic env msg fuel t 0 0 0).1 (Or.inr h)
  · show (readMsg env t inMsg w).res = .failed → Cleared (readMsg env t inMsg w).t
    simp only [readMsg]
    split
    · intro _; exact cleared_clear t
    split
    · intro _; exact cleared_clear t
    split
    · -- START_STATE
      split
      · -- SingleFrame
        split
        · intro h; simp at h
        · intro h; simp at h
      · -- FirstFrame
        split
        · intro _; exact cleared_clear _
        · split
          · intro h; simp at h
          · intro h; simp at h
      · intro _; exact cleared_clear _
    · -- BLOCK_STATE
      split
      · intro _; exact cleared_clear t
      · split
        · split
          · intro _; exact cleared_clear _
          split
          · intro h; simp at h
          · intro h; simp at h
        · split
          · intro h; simp at h
          · intro h; simp at h
    · intro _; exact cleared_clear t

/-- Witness for C3 (amended): a failed underlying write resets the transfer,
and a wrong-PID inbound frame resets the transfer. -/
theorem nontimeout_failure_resets_transfer_witness :
    ((writeMsg envWFail (freshT 0xFFFFFFFF 0x7E8 0x7E0) msgC3 9).res =
        .protoFail →
      Cleared (writeMsg envWFail (freshT 0xFFFFFFFF 0x7E8 0x7E0) msgC3 9).t) ∧
      ((readMsg envWFail (freshT 0xFFFFFFFF 0x7E8 0x7E0) frameBadPid 0).res =
          .failed →
        Cleared
          (readMsg envWFail (freshT 0xFFFFFFFF 0x7E8 0x7E0) frameBadPid 0).t) :=
  nontimeout_failure_resets_transfer envWFail (freshT 0xFFFFFFFF 0x7E8 0x7E0)
    msgC3 frameBadPid 9 0

/-!  ### C8: the Start-state invariant  -/

theorem startInv_clear (t : ISO15765Transfer) : StartInv t.clear := by
  simp [StartInv, ISO15765Transfer.clear]

theorem startStep_offset_ge (msg : PASSTHRU_MSG) (t : ISO15765Transfer) :
    4 ≤ (startStep msg t).2.mOffset := by
  simp only [startStep]
  split <;> simp

theorem blockStep_spec (msg : PASSTHRU_MSG) (t : ISO15765Transfer) :
    (blockStep msg t).2.mOffset = t.mOffset + getRemainingSize msg t.mOffset ∧
      (blockStep msg t).2.mSequence = t.mSequence + 1 ∧
      (blockStep msg t).2.mState = t.mState ∧
      (blockStep msg t).2.mBs = t.mBs := by
  refine ⟨rfl, rfl, rfl, rfl⟩

/-- Loop invariant: from any loop-head state (idle-with-zeroed-counters, or
in-flight with a nonzero offset) the write loop's final transfer satisfies
the Start-state invariant. -/
theorem wLoop_StartInv (env : Env) (msg : PASSTHRU_MSG) :
    ∀ fuel t i w r,
      (t.mState = .START_STATE →
        t.mOffset = 0 ∧ t.mSequence = 0 ∧ t.mBs = 0 ∧ t.mStmin = 0) →
      (¬ t.mState = .START_STATE → ¬ t.mOffset = 0) →
      StartInv (wLoop env msg fuel t i w r).t := by
  intro fuel
  induction fuel with
  | zero =>
    intro t i w r h1 h2
    simp only [wLoop]
    split
    · exact startInv_clear t
    · by_cases hs : t.mState = .START_STATE
      · simp [StartInv, hs, h1 hs]
      · simp only [StartInv]
        constructor
        · intro h; exact absurd h hs
        · intro h; exact absurd h.1 (h2 hs)
  | succ n ih =>
    intro t i w r h1 h2
    simp only [wLoop]
    split
    · exact startInv_clear t
    split
    · by_cases hs : t.mState = .START_STATE
      · simp [StartInv, hs, h1 hs]
      · simp only [StartInv]
        constructor
        · intro h; exact absurd h hs
        · intro h; exact absurd h.1 (h2 hs)
    split
    · -- START_STATE
      split
      · show StartInv (wLoop env msg n _ (_ + 1) (_ + 1) _).t
        apply ih
        · intro h; simp at h
        · intro _
          show ¬ (startStep msg t).2.mOffset = 0
          have := startStep_offset_ge msg t
          omega
      · exact startInv_clear _
    · -- FLOW_CONTROL_STATE
      rename_i hfc
      split
      · exact startInv_clear _
      split
      · exact startInv_clear _
      split
      · exact startInv_clear _
      split
      · exact startInv_clear _
      · show StartInv (wLoop env msg n _ (_ + 1) _ (_ + 1)).t
        apply ih
        · intro h; simp at h
        · intro _
          simp only []
          exact h2 (by rw [hfc]; simp)
    · -- BLOCK_STATE
      rename_i hbl
      split
      · show StartInv (wLoop env msg n _ (_ + 1) (_ + 1) _).t
        apply ih
        · intro h
          split at h <;> simp at h
        · intro _
          have := (blockStep_spec msg t).1
          have hoff : ¬ t.mOffset = 0 := h2 (by rw [hbl]; simp)
          simp only [this]
          omega
      · exact startInv_clear _

/-- C8.  The invariant `state == Start ↔ offset = sequence = bs = stmin = 0`
holds of a freshly constructed transfer and is preserved by every return of
`clear`, `writeMsg` (success or failure) and `readMsg`, for all inputs. -/
theorem transfer_start_state_invariant :
    (∀ a b c m0 : PASSTHRU_MSG, StartInv (ISO15765Transfer.mk' a b c m0)) ∧
      (∀ t : ISO15765Transfer, StartInv t → StartInv t.clear) ∧
      (∀ (env : Env) (t : ISO15765Transfer) (msg : PASSTHRU_MSG) (fuel : Nat),
        StartInv t → StartInv (writeMsg env t msg fuel).t) ∧
      (∀ (env : Env) (t : ISO15765Transfer) (inMsg : PASSTHRU_MSG) (w : Nat),
        StartInv t → StartInv (readMsg env t inMsg w).t) := by
  refine ⟨?_, ?_, ?_, ?_⟩
  · intro a b c m0
    simp [StartInv, ISO15765Transfer.mk']
  · intro t _
    exact startInv_clear t
  · intro env t msg fuel h
    simp only [writeMsg]
    split
    · exact h
    split
    · exact startInv_clear t
    · rename_i hs
      rw [Decidable.not_not] at hs
      exact wLoop_StartInv env msg fuel t 0 0 0 (fun _ => h.mp hs)
        (fun hn => absurd hs hn)
  · intro env t inMsg w _
    simp only [readMsg]
    split
    · exact startInv_clear t
    split
    · exact startInv_clear t
    split
    · -- START_STATE
      rename_i hs
      split
      · -- SingleFrame
        split
        · exact startInv_clear _
        · rename_i hnc
          exfalso
          simp at hnc
      · -- FirstFrame
        split
        · exact startInv_clear _
        · split
          · exact startInv_clear _
          · simp [StartInv, sendFlowControlMessage]
      · exact startInv_clear _
    · -- BLOCK_STATE
      rename_i hb
      split
      · exact startInv_clear t
      · split
        · split
          · exact startInv_clear _
          split
          · exact startInv_clear _
          · simp [StartInv, sendFlowControlMessage, hb]
        · split
          · exact startInv_clear _
          · simp [StartInv, hb]
    · exact startInv_clear t

/-- Witness for C8: the invariant after a concrete `writeMsg` run. -/
theorem transfer_start_state_invariant_witness :
    StartInv (writeMsg envC3 (freshT 0xFFFFFFFF 0x7E8 0x7E0) msgC3 9).t :=
  transfer_start_state_invariant.2.2.1 envC3 (freshT 0xFFFFFFFF 0x7E8 0x7E0)
    msgC3 9 (by decide)

/-!  ### C4: the Single Frame boundary  -/

theorem getFrameName_of_le7 (x : Nat) (h : x ≤ 7) :
    getFrameName x = .SingleFrame := by
  have h0 : (x &&& 0xF0) >>> 4 = 0 := by
    rw [and_F0_shr4, Nat.shiftRight_eq_div_pow]
    omega
  simp [getFrameName, h0]

theorem and_mod16 (x : Nat) : x &&& 0x0F = x % 16 := by
  have h : (0x0F : Nat) = 2 ^ 4 - 1 := by norm_num
  rw [h, Nat.and_pow_two_sub_one_eq_mod]

/-- `startStep` on a message with payload at most 7: it builds a Single
Frame whose PCI byte is the payload length, copies the payload at offset 5
and advances `mOffset` to the end of the message. -/
theorem startStep_single_spec (msg : PASSTHRU_MSG) (t : ISO15765Transfer)
    (h4 : 4 ≤ msg.DataSize) (hSF : msg.DataSize ≤ 11) :
    (startStep msg t).2.mOffset = msg.DataSize ∧
      (startStep msg t).1.Data 4 = msg.DataSize - 4 ∧
      (∀ j, j < msg.DataSize - 4 →
        (startStep msg t).1.Data (5 + j) = msg.Data (4 + j)) := by
  have hgrs : getRemainingSize msg 4 = msg.DataSize - 4 := by
    simp only [getRemainingSize]
    rw [if_pos h4, if_neg (by omega)]
  have hpci : (getPci .SingleFrame &&& 0xF0) ||| ((msg.DataSize - 4) &&& 0x0F) =
      msg.DataSize - 4 := by
    have h1 : getPci .SingleFrame &&& 0xF0 = 0 := by decide
    rw [h1, and_mod16, Nat.zero_or, Nat.mod_eq_of_lt (by omega)]
  simp only [startStep, hgrs]
  rw [if_neg (by omega)]
  split
  · -- padding applied
    refine ⟨by show 4 + (msg.DataSize - 4) = msg.DataSize; omega, ?_, ?_⟩
    · show (paddingMessage _).Data 4 = msg.DataSize - 4
      simp only [paddingMessage, copyData, setData]
      rw [if_neg (by omega)]
      rw [if_neg (by omega)]
      simpa using hpci
    · intro j hj
      show (paddingMessage _).Data (5 + j) = msg.Data (4 + j)
      simp only [paddingMessage, copyData, setData]
      rw [if_neg (by omega)]
      rw [if_pos (by omega)]
      congr 1
      omega
  · -- no padding
    refine ⟨by show 4 + (msg.DataSize - 4) = msg.DataSize; omega, ?_, ?_⟩
    · show (copyData _ 5 msg.Data 4 (msg.DataSize - 4)) 4 = msg.DataSize - 4
      simp only [copyData, setData]
      rw [if_neg (by omega)]
      simpa using hpci
    · intro j hj
      show (copyData _ 5 msg.Data 4 (msg.DataSize - 4)) (5 + j) = msg.Data (4 + j)
      simp only [copyData]
      rw [if_pos (by omega)]
      congr 1
      omega

/-- C4.  For a payload of at most 7 bytes, `writeMsg` from the idle state
emits exactly one frame — a Single Frame whose PCI low nibble is the payload
length followed by the payload bytes — reads no Flow Control, and returns
success with the transfer reset. -/
theorem writeMsg_single_frame (env : Env) (t : ISO15765Transfer)
    (msg : PASSTHRU_MSG) (fuel : Nat)
    (hstart : t.mState = .START_STATE) (hoff : t.mOffset = 0)
    (h4 : 4 ≤ msg.DataSize) (hSF : msg.DataSize ≤ 11)
    (htime : ¬ env.time 0 = 0) (hwr : env.writeOk 0 = true)
    (hfuel : 1 ≤ fuel) :
    (writeMsg env t msg fuel).res = .ok ∧
      (writeMsg env t msg fuel).trace = [.wrote (startStep msg t).1] ∧
      getFrameName ((startStep msg t).1.Data 4) = .SingleFrame ∧
      (startStep msg t).1.Data 4 = msg.DataSize - 4 ∧
      (∀ j, j < msg.DataSize - 4 →
        (startStep msg t).1.Data (5 + j) = msg.Data (4 + j)) ∧
      Cleared (writeMsg env t msg fuel).t := by
  obtain ⟨n, rfl⟩ : ∃ n, fuel = n + 1 := ⟨fuel - 1, by omega⟩
  obtain ⟨ho, hd4, hdata⟩ := startStep_single_spec msg t h4 hSF
  have hred : writeMsg env t msg (n + 1) =
      { res := .ok,
        t := ISO15765Transfer.clear
          { (startStep msg t).2 with mState := .FLOW_CONTROL_STATE },
        trace := [.wrote (startStep msg t).1] } := by
    simp only [writeMsg]
    rw [if_neg (by omega), if_neg (by simp [hstart])]
    simp only [wLoop, hoff]
    rw [if_neg (by omega), if_neg htime, hstart]
    simp [hwr, wLoop, ho]
    rw [wLoop.eq_def]
    simp
  rw [hred]
  refine ⟨rfl, rfl, ?_, hd4, hdata, cleared_clear _⟩
  rw [hd4]
  exact getFrameName_of_le7 _ (by omega)

/-- Witness for C4: a 3-byte payload with `FRAME_PAD` set (scenario S1). -/
theorem writeMsg_single_frame_witness :
    (writeMsg envC3 (freshT 0xFFFFFFFF 0x7E8 0x18DA10F1) msgS1 5).res = .ok ∧
      (writeMsg envC3 (freshT 0xFFFFFFFF 0x7E8 0x18DA10F1) msgS1 5).trace =
        [.wrote (startStep msgS1 (freshT 0xFFFFFFFF 0x7E8 0x18DA10F1)).1] ∧
      getFrameName
        ((startStep msgS1 (freshT 0xFFFFFFFF 0x7E8 0x18DA10F1)).1.Data 4) =
        .SingleFrame ∧
      (startStep msgS1 (freshT 0xFFFFFFFF 0x7E8 0x18DA10F1)).1.Data 4 =
        msgS1.DataSize - 4 ∧
      (∀ j, j < msgS1.DataSize - 4 →
        (startStep msgS1 (freshT 0xFFFFFFFF 0x7E8 0x18DA10F1)).1.Data (5 + j) =
          msgS1.Data (4 + j)) ∧
      Cleared (writeMsg envC3 (freshT 0xFFFFFFFF 0x7E8 0x18DA10F1) msgS1 5).t :=
  writeMsg_single_frame envC3 (freshT 0xFFFFFFFF 0x7E8 0x18DA10F1) msgS1 5
    (by decide) (by decide) (by decide) (by decide) (by decide) (by decide)
    (by decide)

/-!  ### C5: the First Frame and the sequence nibbles  -/

theorem and_mod256 (x : Nat) : x &&& 0xFF = x % 256 := by
  have h : (0xFF : Nat) = 2 ^ 8 - 1 := by norm_num
  rw [h, Nat.and_pow_two_sub_one_eq_mod]

theorem or16_eq_add (x : Nat) (h : x < 16) : (0x10 : Nat) ||| x = 16 + x := by
  have h1 := shl_or_add 4 1 x (by omega)
  norm_num [Nat.shiftLeft_eq] at h1
  exact h1

theorem or32_eq_add (x : Nat) (h : x < 16) : (0x20 : Nat) ||| x = 32 + x := by
  have h1 := shl_or_add 4 2 x (by omega)
  norm_num [Nat.shiftLeft_eq] at h1
  exact h1

theorem getFrameName_or16 (x : Nat) (h : x < 16) :
    getFrameName (0x10 ||| x) = .FirstFrame := by
  have hn : ((0x10 ||| x) &&& 0xF0) >>> 4 = 1 := by
    rw [or16_eq_add x h, and_F0_shr4, Nat.shiftRight_eq_div_pow]
    omega
  simp [getFrameName, hn]

theorem getFrameName_or32 (x : Nat) (h : x < 16) :
    getFrameName (0x20 ||| x) = .ConsecutiveFrame := by
  have hn : ((0x20 ||| x) &&& 0xF0) >>> 4 = 2 := by
    rw [or32_eq_add x h, and_F0_shr4, Nat.shiftRight_eq_div_pow]
    omega
  simp [getFrameName, hn]

/-- The First Frame length field decodes back to the payload length. -/
theorem ff_length_roundtrip (L : Nat) (hL : L ≤ 4095) :
    (((0x10 ||| ((L >>> 8) &&& 0x0F)) &&& 0x0F) <<< 8) |||
      ((L &&& 0xFF) &&& 0xFF) = L := by
  have hx : (L >>> 8) &&& 0x0F = L / 256 := by
    rw [Nat.shiftRight_eq_div_pow, and_mod16]
    have : L / 2 ^ 8 = L / 256 := by norm_num
    rw [this]
    omega
  have hinner : (0x10 ||| (L / 256)) &&& 0x0F = L / 256 := by
    rw [or16_eq_add (L / 256) (by omega), and_mod16]
    omega
  have h2 : (L &&& 0xFF) &&& 0xFF = L % 256 := by
    rw [and_mod256, and_mod256]
    omega
  rw [hx, hinner, h2, shl_or_add 8 (L / 256) (L % 256) (by omega)]
  omega

/-- `startStep` on a message with payload at least 8: it builds a First
Frame carrying the 12-bit length and the first 6 payload bytes, sets
`mSequence` to its successor and advances `mOffset` to 10. -/
theorem startStep_first_spec (msg : PASSTHRU_MSG) (t : ISO15765Transfer)
    (h12 : 12 ≤ msg.DataSize) :
    (startStep msg t).1.Data 4 =
        0x10 ||| (((msg.DataSize - 4) >>> 8) &&& 0x0F) ∧
      (startStep msg t).1.Data 5 = (msg.DataSize - 4) &&& 0xFF ∧
      (∀ j, j < 6 → (startStep msg t).1.Data (6 + j) = msg.Data (4 + j)) ∧
      (startStep msg t).2.mOffset = 10 ∧
      (startStep msg t).2.mSequence = t.mSequence + 1 ∧
      (startStep msg t).2.mState = t.mState ∧
      (startStep msg t).2.mBs = t.mBs := by
  have hgrs : getRemainingSize msg 4 = 7 := by
    simp only [getRemainingSize]
    rw [if_pos (by omega), if_pos (by omega)]
  have hpci : getPci .FirstFrame &&& 0xF0 = 0x10 := by decide
  simp only [startStep, hgrs]
  rw [if_pos (by omega)]
  split
  · -- padding applied (a no-op on bytes 0..11 since DataSize is already 12)
    refine ⟨?_, ?_, ?_, rfl, rfl, rfl, rfl⟩
    · show (paddingMessage _).Data 4 = _
      simp [paddingMessage, copyData, setData, hpci]
    · show (paddingMessage _).Data 5 = _
      simp [paddingMessage, copyData, setData]
    · intro j hj
      show (paddingMessage _).Data (6 + j) = msg.Data (4 + j)
      simp only [paddingMessage, copyData, setData]
      rw [if_neg (by omega), if_pos (by omega)]
      congr 1
      omega
  · refine ⟨?_, ?_, ?_, rfl, rfl, rfl, rfl⟩
    · show (copyData _ 6 msg.Data 4 6) 4 = _
      simp [copyData, setData, hpci]
    · show (copyData _ 6 msg.Data 4 6) 5 = _
      simp [copyData, setData]
    · intro j hj
      show (copyData _ 6 msg.Data 4 6) (6 + j) = msg.Data (4 + j)
      simp only [copyData]
      rw [if_pos (by omega)]
      congr 1
      omega

/-- The PCI byte of the Consecutive Frame built by `blockStep`. -/
theorem blockStep_data4 (msg : PASSTHRU_MSG) (t : ISO15765Transfer) :
    (blockStep msg t).1.Data 4 = 0x20 ||| (t.mSequence % 16) := by
  have hpci : getPci .ConsecutiveFrame &&& 0xF0 = 0x20 := by decide
  simp only [blockStep]
  split
  · show (paddingMessage _).Data 4 = _
    simp only [paddingMessage, copyData, setData]
    rw [if_neg (by omega), if_neg (by omega)]
    simp [hpci, and_mod16]
  · show (copyData _ 5 msg.Data t.mOffset (getRemainingSize msg t.mOffset)) 4 = _
    simp only [copyData, setData]
    rw [if_neg (by omega)]
    simp [hpci, and_mod16]

/-- From the `FLOW_CONTROL_STATE`, the first channel event of the write
loop — if there is one — is a received Flow Control, never a write: the
sender blocks on the Flow Control read before emitting anything further. -/
theorem wLoop_fc_first_event (env : Env) (msg : PASSTHRU_MSG)
    (fuel : Nat) (t : ISO15765Transfer) (i w r : Nat)
    (hfc : t.mState = .FLOW_CONTROL_STATE) :
    ∀ e, (wLoop env msg fuel t i w r).trace.head? = some e →
      ∃ m, e = .gotFC m := by
  intro e he
  cases fuel with
  | zero =>
    simp only [wLoop] at he
    split at he <;> simp at he
  | succ n =>
    simp only [wLoop] at he
    split at he
    · simp at he
    split at he
    · simp at he
    split at he
    · rename_i hst
      rw [hfc] at hst
      simp at hst
    · split at he
      · simp at he
      split at he
      · simp at he
      split at he
      · simp at he
      split at he
      · simp at he
      · simp at he
        exact ⟨_, he.symm⟩
    · rename_i hst
      rw [hfc] at hst
      simp at hst

/-- Every frame the write loop emits from a non-idle state is a Consecutive
Frame, and the j-th one carries sequence nibble `(mSequence + j) % 16`. -/
theorem wLoop_cf_nibbles (env : Env) (msg : PASSTHRU_MSG) :
    ∀ fuel t i w r, ¬ t.mState = .START_STATE →
      ∀ j m,
        ((wLoop env msg fuel t i w r).trace.filterMap wroteFrame).get? j =
          some m →
        m.Data 4 = 0x20 ||| ((t.mSequence + j) % 16) ∧
          getFrameName (m.Data 4) = .ConsecutiveFrame := by
  intro fuel
  induction fuel with
  | zero =>
    intro t i w r hns j m hm
    simp only [wLoop] at hm
    split at hm
    · simp at hm
    · simp at hm
  | succ n ih =>
    intro t i w r hns j m hm
    simp only [wLoop] at hm
    split at hm
    · simp at hm
    split at hm
    · simp at hm
    split at hm
    · rename_i hs
      exact absurd hs hns
    · -- FLOW_CONTROL_STATE
      rename_i hs
      split at hm
      · simp at hm
      rename_i mfc hmfc
      split at hm
      · simp at hm
      split at hm
      · simp at hm
      split at hm
      · simp at hm
      · simp only [List.filterMap_cons, wroteFrame] at hm
        have hm2 : (List.filterMap wroteFrame
            (wLoop env msg n
              { t with
                mMessage := mfc
                mBs := mfc.Data 5
                mStmin := mfc.Data 6
                mState := TransferState.BLOCK_STATE }
              (i + 1) w (r + 1)).trace).get? j = some m := by
          simpa using hm
        simpa using ih _ (i + 1) w (r + 1) (by simp) j m hm2
    · -- BLOCK_STATE
      rename_i hs
      split at hm
      · simp only [List.filterMap_cons, wroteFrame] at hm
        cases j with
        | zero =>
          have hmm : (blockStep msg t).1 = m := by
            simpa using hm
          subst hmm
          rw [blockStep_data4]
          refine ⟨by simp, getFrameName_or32 _ (by omega)⟩
        | succ j =>
          have hm2 : (List.filterMap wroteFrame
              (wLoop env msg n
                { (blockStep msg t).2 with
                  mBs := decBs (blockStep msg t).2.mBs
                  mState := if decBs (blockStep msg t).2.mBs = 0 then
                    TransferState.FLOW_CONTROL_STATE else
                      TransferState.BLOCK_STATE }
                (i + 1) (w + 1) r).trace).get? j = some m := by
            simpa using hm
          have hres := ih _ (i + 1) (w + 1) r (by split <;> simp) j m hm2
          rcases hres with ⟨h1, h2⟩
          refine ⟨?_, h2⟩
          rw [h1]
          have hseq : (({ (blockStep msg t).2 with
              mBs := decBs (blockStep msg t).2.mBs
              mState := if decBs (blockStep msg t).2.mBs = 0 then
                TransferState.FLOW_CONTROL_STATE else
                  TransferState.BLOCK_STATE } : ISO15765Transfer).mSequence + j) =
              t.mSequence + (j + 1) := by
            have hb := (blockStep_spec msg t).2.1
            simp only []
            omega
          rw [hseq]
      · simp at hm

/-- C5.  For a payload of 8 to 4095 bytes, the first emitted frame is a
First Frame whose 12-bit length field decodes to the payload length,
followed by the first 6 payload bytes; the sender then blocks awaiting a
Flow Control (the next channel event, if any, is a Flow Control reception);
and the Consecutive Frames carry sequence nibbles 1, 2, …, 15, 0, 1, …
modulo 16 starting at 1. -/
theorem writeMsg_first_frame_and_sequence (env : Env) (t : ISO15765Transfer)
    (msg : PASSTHRU_MSG) (fuel : Nat)
    (hstart : t.mState = .START_STATE) (hoff : t.mOffset = 0)
    (hseq : t.mSequence = 0)
    (h12 : 12 ≤ msg.DataSize) (hmax : msg.DataSize ≤ 4099)
    (htime : ¬ env.time 0 = 0) (hwr : env.writeOk 0 = true)
    (hfuel : 1 ≤ fuel) :
    ∃ rest,
      (writeMsg env t msg fuel).trace = .wrote (startStep msg t).1 :: rest ∧
        getFrameName ((startStep msg t).1.Data 4) = .FirstFrame ∧
        ((((startStep msg t).1.Data 4) &&& 0x0F) <<< 8) |||
          (((startStep msg t).1.Data 5) &&& 0xFF) = msg.DataSize - 4 ∧
        (∀ j, j < 6 → (startStep msg t).1.Data (6 + j) = msg.Data (4 + j)) ∧
        (∀ e, rest.head? = some e → ∃ m, e = .gotFC m) ∧
        (∀ j m, (rest.filterMap wroteFrame).get? j = some m →
          m.Data 4 = 0x20 ||| ((1 + j) % 16) ∧
            getFrameName (m.Data 4) = .ConsecutiveFrame) := by
  obtain ⟨n, rfl⟩ : ∃ n, fuel = n + 1 := ⟨fuel - 1, by omega⟩
  obtain ⟨hd4, hd5, hdata, hso, hsq, hss, hsb⟩ :=
    startStep_first_spec msg t (by omega)
  have hred : writeMsg env t msg (n + 1) =
      { res := (wLoop env msg n
          { (startStep msg t).2 with mState := .FLOW_CONTROL_STATE } 1 1 0).res,
        t := (wLoop env msg n
          { (startStep msg t).2 with mState := .FLOW_CONTROL_STATE } 1 1 0).t,
        trace := .wrote (startStep msg t).1 ::
          (wLoop env msg n
            { (startStep msg t).2 with
              mState := .FLOW_CONTROL_STATE } 1 1 0).trace } := by
    simp only [writeMsg]
    rw [if_neg (by omega), if_neg (by simp [hstart])]
    simp only [wLoop, hoff]
    rw [if_neg (by omega), if_neg htime, hstart]
    simp [hwr]
  refine ⟨(wLoop env msg n
      { (startStep msg t).2 with mState := .FLOW_CONTROL_STATE } 1 1 0).trace,
    ?_, ?_, ?_, hdata, ?_, ?_⟩
  · rw [hred]
  · rw [hd4]
    apply getFrameName_or16
    rw [and_mod16]
    omega
  · rw [hd4, hd5]
    exact ff_length_roundtrip (msg.DataSize - 4) (by omega)
  · exact wLoop_fc_first_event env msg n _ 1 1 0 rfl
  · intro j m hm
    have hres := wLoop_cf_nibbles env msg n
      { (startStep msg t).2 with mState := .FLOW_CONTROL_STATE } 1 1 0
      (by simp) j m hm
    rcases hres with ⟨h1, h2⟩
    refine ⟨?_, h2⟩
    rw [h1]
    have : ({ (startStep msg t).2 with
        mState := TransferState.FLOW_CONTROL_STATE } : ISO15765Transfer).mSequence =
        1 := by
      simp only []
      omega
    rw [this]

/-- Witness for C5: scenario S2 (20-byte payload, PID `0x7E0`). -/
theorem writeMsg_first_frame_and_sequence_witness :
    ∃ rest,
      (writeMsg envC3 (freshT 0xFFFFFFFF 0x7E8 0x7E0) msgS2 5).trace =
          .wrote (startStep msgS2 (freshT 0xFFFFFFFF 0x7E8 0x7E0)).1 :: rest ∧
        getFrameName
          ((startStep msgS2 (freshT 0xFFFFFFFF 0x7E8 0x7E0)).1.Data 4) =
          .FirstFrame ∧
        ((((startStep msgS2 (freshT 0xFFFFFFFF 0x7E8 0x7E0)).1.Data 4) &&& 0x0F)
            <<< 8) |||
          (((startStep msgS2 (freshT 0xFFFFFFFF 0x7E8 0x7E0)).1.Data 5) &&&
            0xFF) = msgS2.DataSize - 4 ∧
        (∀ j, j < 6 →
          (startStep msgS2 (freshT 0xFFFFFFFF 0x7E8 0x7E0)).1.Data (6 + j) =
            msgS2.Data (4 + j)) ∧
        (∀ e, rest.head? = some e → ∃ m, e = .gotFC m) ∧
        (∀ j m, (rest.filterMap wroteFrame).get? j = some m →
          m.Data 4 = 0x20 ||| ((1 + j) % 16) ∧
            getFrameName (m.Data 4) = .ConsecutiveFrame) :=
  writeMsg_first_frame_and_sequence envC3 (freshT 0xFFFFFFFF 0x7E8 0x7E0)
    msgS2 5 (by decide) (by decide) (by decide) (by decide) (by decide)
    (by decide) (by decide) (by decide)

/-!  ### C6: flow-control-driven pacing  -/

set_option maxRecDepth 2000

theorem get?0_head {α : Type} (l : List α) : l.get? 0 = l.head? := by
  cases l <;> rfl

theorem decBs_zero : decBs 0 = ULONG_MOD - 1 := by
  unfold decBs
  simp [ULONG_MOD]

theorem decBs_pos (b : Nat) (h1 : 1 ≤ b) (h2 : b < ULONG_MOD) :
    decBs b = b - 1 := by
  unfold decBs
  simp only [ULONG_MOD] at h2 ⊢
  omega

theorem decBs_lt (b : Nat) : decBs b < ULONG_MOD := by
  unfold decBs
  exact Nat.mod_lt _ (by norm_num [ULONG_MOD])

theorem wLoop_done (env : Env) (msg : PASSTHRU_MSG) (fuel : Nat)
    (t : ISO15765Transfer) (i w r : Nat) (h : msg.DataSize ≤ t.mOffset) :
    wLoop env msg fuel t i w r = { res := .ok, t := t.clear, trace := [] } := by
  cases fuel <;> (simp only [wLoop]; rw [if_pos h])

theorem getRemainingSize_of_big (msg : PASSTHRU_MSG) (off : Nat)
    (h1 : off ≤ msg.DataSize) (h2 : 7 < msg.DataSize - off) :
    getRemainingSize msg off = 7 := by
  simp only [getRemainingSize]
  rw [if_pos h1, if_pos (by omega)]

theorem getRemainingSize_of_small (msg : PASSTHRU_MSG) (off : Nat)
    (h1 : off ≤ msg.DataSize) (h2 : msg.DataSize - off ≤ 7) :
    getRemainingSize msg off = msg.DataSize - off := by
  simp only [getRemainingSize]
  rw [if_pos h1, if_neg (by omega)]

/-- One iteration of the write loop from the Flow Control wait, on a valid
Flow Control frame: record the reception, load `mBs`/`mStmin` from bytes 5
and 6, move to `BLOCK_STATE` and continue. -/
theorem wLoop_fc_step (env : Env) (msg : PASSTHRU_MSG) (fuel : Nat)
    (t : ISO15765Transfer) (i w r : Nat) (fcm : PASSTHRU_MSG)
    (hfc : t.mState = .FLOW_CONTROL_STATE)
    (hguard : t.mOffset < msg.DataSize)
    (htime : ¬ env.time i = 0)
    (hread : env.read r = some fcm)
    (hsize : 4 ≤ fcm.DataSize)
    (hpid : data2pid fcm.Data &&& t.mMaskPid = t.mPatternPid)
    (hkind : getFrameName (fcm.Data 4) = .FlowControl)
    (hfuel : 1 ≤ fuel) :
    wLoop env msg fuel t i w r =
      { res := (wLoop env msg (fuel - 1)
          { t with
            mMessage := fcm
            mBs := fcm.Data 5
            mStmin := fcm.Data 6
            mState := .BLOCK_STATE } (i + 1) w (r + 1)).res,
        t := (wLoop env msg (fuel - 1)
          { t with
            mMessage := fcm
            mBs := fcm.Data 5
            mStmin := fcm.Data 6
            mState := .BLOCK_STATE } (i + 1) w (r + 1)).t,
        trace := .gotFC fcm :: (wLoop env msg (fuel - 1)
          { t with
            mMessage := fcm
            mBs := fcm.Data 5
            mStmin := fcm.Data 6
            mState := .BLOCK_STATE } (i + 1) w (r + 1)).trace } := by
  obtain ⟨n, rfl⟩ : ∃ n, fuel = n + 1 := ⟨fuel - 1, by omega⟩
  simp only [wLoop]
  rw [if_neg (by omega), if_neg htime, hfc, hread]
  simp only [Nat.add_sub_cancel]
  rw [if_neg (by omega), if_neg (by simp [hpid]), if_neg (by simp [hkind])]

/-- One iteration of the write loop from `BLOCK_STATE` with a successful
write: emit the Consecutive Frame, decrement `mBs` (with unsigned wrap) and
fall back to the Flow Control wait exactly when it reaches zero. -/
theorem wLoop_block_step (env : Env) (msg : PASSTHRU_MSG) (fuel : Nat)
    (t : ISO15765Transfer) (i w r : Nat)
    (hb : t.mState = .BLOCK_STATE)
    (hguard : t.mOffset < msg.DataSize)
    (htime : ¬ env.time i = 0)
    (hwr : env.writeOk w = true)
    (hfuel : 1 ≤ fuel) :
    wLoop env msg fuel t i w r =
      { res := (wLoop env msg (fuel - 1)
          { (blockStep msg t).2 with
            mBs := decBs t.mBs
            mState := if decBs t.mBs = 0 then .FLOW_CONTROL_STATE
              else .BLOCK_STATE } (i + 1) (w + 1) r).res,
        t := (wLoop env msg (fuel - 1)
          { (blockStep msg t).2 with
            mBs := decBs t.mBs
            mState := if decBs t.mBs = 0 then .FLOW_CONTROL_STATE
              else .BLOCK_STATE } (i + 1) (w + 1) r).t,
        trace := .wrote (blockStep msg t).1 :: (wLoop env msg (fuel - 1)
          { (blockStep msg t).2 with
            mBs := decBs t.mBs
            mState := if decBs t.mBs = 0 then .FLOW_CONTROL_STATE
              else .BLOCK_STATE } (i + 1) (w + 1) r).trace } := by
  obtain ⟨n, rfl⟩ : ∃ n, fuel = n + 1 := ⟨fuel - 1, by omega⟩
  simp only [wLoop]
  rw [if_neg (by omega), if_neg htime, hb]
  have hbs2 := (blockStep_spec msg t).2.2.2
  simp [hwr, hbs2]

/-- From `BLOCK_STATE` with `mBs = b` (a block size of `b ≥ 1` frames) and
more than `7 * b` payload bytes still to send, the loop emits exactly `b`
Consecutive Frames and then waits for the next Flow Control: events
`0, …, b - 1` are writes and event `b`, if it exists, is a Flow Control
reception. -/
theorem wLoop_block_run (env : Env) (msg : PASSTHRU_MSG)
    (htimes : ∀ k, ¬ env.time k = 0) (hwrs : ∀ k, env.writeOk k = true) :
    ∀ b fuel t i w r,
      t.mState = .BLOCK_STATE → t.mBs = b → 1 ≤ b → b ≤ 255 →
      t.mOffset ≤ msg.DataSize → 7 * b < msg.DataSize - t.mOffset →
      b + 1 ≤ fuel →
      (∀ j, j < b → ∃ m,
        (wLoop env msg fuel t i w r).trace.get? j = some (.wrote m)) ∧
      (∀ e, (wLoop env msg fuel t i w r).trace.get? b = some e →
        ∃ m, e = .gotFC m) := by
  intro b
  induction b with
  | zero => intro fuel t i w r _ _ h1; omega
  | succ b ih =>
    intro fuel t i w r hb hbs hb1 hb255 hoffle hrem hfuel
    have hstep := wLoop_block_step env msg fuel t i w r hb (by omega)
      (htimes i) (hwrs w) (by omega)
    have hbsdec : decBs t.mBs = b := by
      rw [hbs, decBs_pos (b + 1) (by omega) (by simp only [ULONG_MOD]; omega)]
      omega
    have hT4off : ({ (blockStep msg t).2 with
        mBs := decBs t.mBs
        mState := if decBs t.mBs = 0 then TransferState.FLOW_CONTROL_STATE
          else TransferState.BLOCK_STATE } : ISO15765Transfer).mOffset =
        t.mOffset + 7 := by
      show (blockStep msg t).2.mOffset = _
      rw [(blockStep_spec msg t).1,
        getRemainingSize_of_big msg t.mOffset hoffle (by omega)]
    cases Nat.eq_zero_or_pos b with
    | inl hb0 =>
      subst hb0
      have hT4fc : ({ (blockStep msg t).2 with
          mBs := decBs t.mBs
          mState := if decBs t.mBs = 0 then TransferState.FLOW_CONTROL_STATE
            else TransferState.BLOCK_STATE } : ISO15765Transfer).mState =
          .FLOW_CONTROL_STATE := by
        show (if decBs t.mBs = 0 then TransferState.FLOW_CONTROL_STATE
          else TransferState.BLOCK_STATE) = _
        rw [hbsdec]
        simp
      constructor
      · intro j hj
        have hj0 : j = 0 := by omega
        subst hj0
        rw [hstep]
        exact ⟨(blockStep msg t).1, rfl⟩
      · intro e he
        rw [hstep] at he
        simp only [List.get?_cons_succ, get?0_head] at he
        exact wLoop_fc_first_event env msg (fuel - 1) _ (i + 1) (w + 1) r
          hT4fc e he
    | inr hbpos =>
      have hrec := ih (fuel - 1)
        ({ (blockStep msg t).2 with
          mBs := decBs t.mBs
          mState := if decBs t.mBs = 0 then TransferState.FLOW_CONTROL_STATE
            else TransferState.BLOCK_STATE }) (i + 1) (w + 1) r
        (by show (if decBs t.mBs = 0 then TransferState.FLOW_CONTROL_STATE
              else TransferState.BLOCK_STATE) = _
            rw [hbsdec]
            simp [Nat.pos_iff_ne_zero.mp hbpos])
        (by show decBs t.mBs = b; exact hbsdec)
        hbpos (by omega)
        (by rw [hT4off]; omega)
        (by rw [hT4off]; omega)
        (by omega)
      constructor
      · intro j hj
        cases j with
        | zero =>
          rw [hstep]
          exact ⟨(blockStep msg t).1, rfl⟩
        | succ j =>
          rw [hstep]
          simp only [List.get?_cons_succ]
          exact hrec.1 j (by omega)
      · intro e he
        rw [hstep] at he
        simp only [List.get?_cons_succ] at he
        exact hrec.2 e he

/-- From `BLOCK_STATE`, when the remaining payload needs at most as many
Consecutive Frames as the (wrap-around) `mBs` countdown allows, the loop
drains the whole message: it returns success and every further channel
event is a write — no Flow Control is ever awaited again. -/
theorem wLoop_block_drain (env : Env) (msg : PASSTHRU_MSG)
    (htimes : ∀ k, ¬ env.time k = 0) (hwrs : ∀ k, env.writeOk k = true) :
    ∀ fuel t i w r,
      t.mState = .BLOCK_STATE → t.mOffset ≤ msg.DataSize →
      1 ≤ msg.DataSize - t.mOffset →
      (msg.DataSize - t.mOffset + 6) / 7 ≤
        (if t.mBs = 0 then ULONG_MOD else t.mBs) →
      t.mBs < ULONG_MOD →
      (msg.DataSize - t.mOffset + 6) / 7 ≤ fuel →
      (wLoop env msg fuel t i w r).res = .ok ∧
      (∀ e ∈ (wLoop env msg fuel t i w r).trace, ∃ m, e = .wrote m) := by
  intro fuel
  induction fuel with
  | zero => intro t i w r _ _ hR hcap _ hfuel; omega
  | succ n ih =>
    intro t i w r hb hoffle hR hcap hbslt hfuel
    have hstep := wLoop_block_step env msg (n + 1) t i w r hb (by omega)
      (htimes i) (hwrs w) (by omega)
    simp only [Nat.add_sub_cancel] at hstep
    cases Nat.lt_or_ge 7 (msg.DataSize - t.mOffset) with
    | inr hsmall =>
      -- the last Consecutive Frame completes the message
      have hT4off : ({ (blockStep msg t).2 with
          mBs := decBs t.mBs
          mState := if decBs t.mBs = 0 then TransferState.FLOW_CONTROL_STATE
            else TransferState.BLOCK_STATE } : ISO15765Transfer).mOffset =
          msg.DataSize := by
        show (blockStep msg t).2.mOffset = _
        rw [(blockStep_spec msg t).1,
          getRemainingSize_of_small msg t.mOffset hoffle hsmall]
        omega
      rw [hstep]
      constructor
      · rw [wLoop_done env msg n _ (i + 1) (w + 1) r (by rw [hT4off])]
      · intro e he
        simp only [List.mem_cons] at he
        cases he with
        | inl h => exact ⟨(blockStep msg t).1, h⟩
        | inr h =>
          exfalso
          rw [wLoop_done env msg n _ (i + 1) (w + 1) r (by rw [hT4off])] at h
          simp at h
    | inl hbig =>
      have hc2 : 2 ≤ (msg.DataSize - t.mOffset + 6) / 7 := by omega
      have hbsne1 : ¬ t.mBs = 1 := by
        intro h1
        rw [h1] at hcap
        first
        | (rw [if_neg (by omega)] at hcap; omega)
        | omega
      have hdecne : ¬ decBs t.mBs = 0 := by
        cases Nat.eq_zero_or_pos t.mBs with
        | inl h0 =>
          rw [h0, decBs_zero]
          simp only [ULONG_MOD]
          omega
        | inr hpos =>
          rw [decBs_pos t.mBs hpos hbslt]
          omega
      have hT4off : ({ (blockStep msg t).2 with
          mBs := decBs t.mBs
          mState := if decBs t.mBs = 0 then TransferState.FLOW_CONTROL_STATE
            else TransferState.BLOCK_STATE } : ISO15765Transfer).mOffset =
          t.mOffset + 7 := by
        show (blockStep msg t).2.mOffset = _
        rw [(blockStep_spec msg t).1,
          getRemainingSize_of_big msg t.mOffset hoffle hbig]
      have hcap2 : (msg.DataSize - (t.mOffset + 7) + 6) / 7 ≤
          (if decBs t.mBs = 0 then ULONG_MOD else decBs t.mBs) := by
        rw [if_neg hdecne]
        cases Nat.eq_zero_or_pos t.mBs with
        | inl h0 =>
          rw [h0, decBs_zero]
          have hcap3 : (msg.DataSize - t.mOffset + 6) / 7 ≤ ULONG_MOD := by
            rw [h0] at hcap
            simpa using hcap
          simp only [ULONG_MOD] at hcap3 ⊢
          omega
        | inr hpos =>
          rw [decBs_pos t.mBs hpos hbslt]
          have hcap4 : (msg.DataSize - t.mOffset + 6) / 7 ≤ t.mBs := by
            first
            | (rw [if_neg (by omega)] at hcap; exact hcap)
            | exact hcap
          omega
      have hrec := ih ({ (blockStep msg t).2 with
          mBs := decBs t.mBs
          mState := if decBs t.mBs = 0 then TransferState.FLOW_CONTROL_STATE
            else TransferState.BLOCK_STATE }) (i + 1) (w + 1) r
        (by show (if decBs t.mBs = 0 then TransferState.FLOW_CONTROL_STATE
              else TransferState.BLOCK_STATE) = _
            rw [if_neg hdecne])
        (by rw [hT4off]; omega)
        (by rw [hT4off]; omega)
        (by rw [hT4off]
            show _ ≤ (if decBs t.mBs = 0 then ULONG_MOD else decBs t.mBs)
            exact hcap2)
        (decBs_lt t.mBs)
        (by rw [hT4off]; omega)
      rw [hstep]
      constructor
      · exact hrec.1
      · intro e he
        simp only [List.mem_cons] at he
        cases he with
        | inl h => exact ⟨(blockStep msg t).1, h⟩
        | inr h => exact hrec.2 e h

/-- C6.  Flow-control-driven pacing, observed at the moment a Flow Control
frame is received.  (a) When the received Flow Control carries block size
`k` with `1 ≤ k ≤ 255` and more than `7 * k` payload bytes remain, the
sender emits exactly `k` Consecutive Frames before the next Flow Control
reception: after the `gotFC` event, events `1 … k` are writes, and event
`k + 1` — if it exists — is the next Flow Control reception.  (b) When the
received Flow Control carries block size 0, the sender emits all remaining
Consecutive Frames after that single Flow Control without waiting for
another: the write completes successfully and every event after the single
`gotFC` is a write. -/
theorem writeMsg_flow_control_pacing (env : Env) (msg : PASSTHRU_MSG)
    (t : ISO15765Transfer) (fuel i w r k : Nat) (fcm : PASSTHRU_MSG)
    (htimes : ∀ j, ¬ env.time j = 0) (hwrs : ∀ j, env.writeOk j = true)
    (hfc : t.mState = .FLOW_CONTROL_STATE)
    (hread : env.read r = some fcm) (hsize : 4 ≤ fcm.DataSize)
    (hpid : data2pid fcm.Data &&& t.mMaskPid = t.mPatternPid)
    (hkind : getFrameName (fcm.Data 4) = .FlowControl)
    (hbs : fcm.Data 5 = k) :
    (1 ≤ k → k ≤ 255 → 7 * k < msg.DataSize - t.mOffset → k + 2 ≤ fuel →
      (wLoop env msg fuel t i w r).trace.get? 0 = some (.gotFC fcm) ∧
      (∀ j, 1 ≤ j → j ≤ k → ∃ m,
        (wLoop env msg fuel t i w r).trace.get? j = some (.wrote m)) ∧
      (∀ e, (wLoop env msg fuel t i w r).trace.get? (k + 1) = some e →
        ∃ m, e = .gotFC m)) ∧
    (k = 0 → 1 ≤ msg.DataSize - t.mOffset → msg.DataSize ≤ 4099 →
      600 ≤ fuel →
      (wLoop env msg fuel t i w r).res = .ok ∧
      ∃ rest, (wLoop env msg fuel t i w r).trace = .gotFC fcm :: rest ∧
        ∀ e ∈ rest, ∃ m, e = .wrote m) := by
  constructor
  · intro hk1 hk255 hrem hfuel
    have hguard : t.mOffset < msg.DataSize := by omega
    have hstep := wLoop_fc_step env msg fuel t i w r fcm hfc hguard
      (htimes i) hread hsize hpid hkind (by omega)
    have hrun := wLoop_block_run env msg htimes hwrs k (fuel - 1)
      ({ t with
        mMessage := fcm
        mBs := fcm.Data 5
        mStmin := fcm.Data 6
        mState := .BLOCK_STATE }) (i + 1) w (r + 1)
      rfl (by show fcm.Data 5 = k; exact hbs) hk1 hk255
      (by show t.mOffset ≤ msg.DataSize; omega)
      (by show 7 * k < msg.DataSize - t.mOffset; omega)
      (by omega)
    refine ⟨?_, ?_, ?_⟩
    · rw [hstep]
      rfl
    · intro j hj1 hjk
      obtain ⟨j1, rfl⟩ : ∃ j1, j = j1 + 1 := ⟨j - 1, by omega⟩
      rw [hstep]
      simp only [List.get?_cons_succ]
      exact hrun.1 j1 (by omega)
    · intro e he
      rw [hstep] at he
      simp only [List.get?_cons_succ] at he
      exact hrun.2 e he
  · intro hk0 hR hmax hfuel
    subst hk0
    have hguard : t.mOffset < msg.DataSize := by omega
    have hstep := wLoop_fc_step env msg fuel t i w r fcm hfc hguard
      (htimes i) hread hsize hpid hkind (by omega)
    have hdrain := wLoop_block_drain env msg htimes hwrs (fuel - 1)
      ({ t with
        mMessage := fcm
        mBs := fcm.Data 5
        mStmin := fcm.Data 6
        mState := .BLOCK_STATE }) (i + 1) w (r + 1)
      rfl (by show t.mOffset ≤ msg.DataSize; omega)
      (by show 1 ≤ msg.DataSize - t.mOffset; omega)
      (by show (msg.DataSize - t.mOffset + 6) / 7 ≤
            (if fcm.Data 5 = 0 then ULONG_MOD else fcm.Data 5)
          rw [if_pos hbs]
          simp only [ULONG_MOD]
          omega)
      (by show fcm.Data 5 < ULONG_MOD
          rw [hbs]
          norm_num [ULONG_MOD])
      (by show (msg.DataSize - t.mOffset + 6) / 7 ≤ fuel - 1; omega)
    refine ⟨?_, ?_⟩
    · rw [hstep]
      exact hdrain.1
    · refine ⟨(wLoop env msg (fuel - 1)
        ({ t with
          mMessage := fcm
          mBs := fcm.Data 5
          mStmin := fcm.Data 6
          mState := .BLOCK_STATE }) (i + 1) w (r + 1)).trace, ?_, ?_⟩
      · rw [hstep]
      · exact hdrain.2

/-- Witness for C6: block size 2 paces a 36-byte payload (part a), and
block size 0 drains it after a single Flow Control (part b). -/
theorem writeMsg_flow_control_pacing_witness :
    ((wLoop (envS6 2) msgS6 10 tS6 0 0 0).trace.get? 0 =
        some (.gotFC (fcFrame 2)) ∧
      (∀ j, 1 ≤ j → j ≤ 2 → ∃ m,
        (wLoop (envS6 2) msgS6 10 tS6 0 0 0).trace.get? j =
          some (.wrote m)) ∧
      (∀ e, (wLoop (envS6 2) msgS6 10 tS6 0 0 0).trace.get? 3 = some e →
        ∃ m, e = .gotFC m)) ∧
    ((wLoop (envS6 0) msgS6 600 tS6 0 0 0).res = .ok ∧
      ∃ rest, (wLoop (envS6 0) msgS6 600 tS6 0 0 0).trace =
          .gotFC (fcFrame 0) :: rest ∧
        ∀ e ∈ rest, ∃ m, e = .wrote m) := by
  constructor
  · exact (writeMsg_flow_control_pacing (envS6 2) msgS6 tS6 10 0 0 0 2
      (fcFrame 2) (fun _ => by simp [envS6]) (fun _ => rfl) (by decide) rfl
      (by decide) (by decide) (by decide) (by decide)).1
      (by decide) (by decide) (by decide) (by decide)
  · exact (writeMsg_flow_control_pacing (envS6 0) msgS6 tS6 600 0 0 0 0
      (fcFrame 0) (fun _ => by simp [envS6]) (fun _ => rfl) (by decide) rfl
      (by decide) (by decide) (by decide) (by decide)).2
      (by decide) (by decide) (by decide) (by decide)

/-- C2: `readMsgs` with batch capacity 2 and two complete Single Frame
messages reports a count of 2, but both assembled messages are stored through
the never-advanced `pMsg` pointer: the second message (5 bytes, payload
`0xBB`) overwrites the first in slot 0, and slot 1 is left untouched
(`DataSize` still 0), so the i-th completed message does not go into the
i-th output slot and an earlier completed slot is overwritten. -/
theorem readMsgs_overwrites_slot_zero :
    (readMsgs envC2 2 (fun _ => default) [freshT 0xFFFFFFFF 0x7E8 0x7E0]
        4).count = 2 ∧
    ((readMsgs envC2 2 (fun _ => default) [freshT 0xFFFFFFFF 0x7E8 0x7E0]
        4).outArr 0).DataSize = 5 ∧
    ((readMsgs envC2 2 (fun _ => default) [freshT 0xFFFFFFFF 0x7E8 0x7E0]
        4).outArr 0).Data 4 = 0xBB ∧
    ((readMsgs envC2 2 (fun _ => default) [freshT 0xFFFFFFFF 0x7E8 0x7E0]
        4).outArr 1).DataSize = 0 := by
  decide

end ISO15765Proxy
